import Mathlib

/-!
Shallow embedding of the trading-signal relay in `src/app.py`.

The Python program keeps two module-level dictionaries, `EMA_STATE`
(ticker to latest trend snapshot) and `LAST_TRADES` (ticker to last trade
record), here combined into a `SysState` of two partial maps.  The
external collaborators are passed in explicitly: the Order Submission
Gateway as a function `send : Payload → SubmissionResult` (or, one level
lower, the raw network as `net : Payload → NetResult`), and the float
parser used by `update_ema_state_from_json` as `pf : String → Option Rat`
(a `none` result models a `float(...)` call that raises).  Inbound JSON
dictionaries are modelled as string-keyed association lists of string
values, matching the `str(...)` coercion the source applies to the flag
fields; `dict.get` is `dictGet`.
-/

/-- A per-ticker trend snapshot, as stored in `EMA_STATE` by
`update_ema_state_from_json` (src/app.py lines 80-87).  The alignment
flags are `Option Bool` because `handle_new_trade_for_ticker` reads them
with `.get("above13", None)` and checks for `None`: absence of the key in
the stored dictionary is observable there. -/
structure TickerTrend where
  above13 : Option Bool
  above200 : Option Bool
  ema13 : Rat
  ema200 : Rat
  close : Rat
  time : String
deriving DecidableEq

/-- Result dictionary returned by `send_to_traderspost` (lines 35, 40-44,
47): always an `ok` flag, plus status code and body on a completed HTTP
exchange, or an error string otherwise. -/
structure SubmissionResult where
  ok : Bool
  status_code : Option Int
  body : Option String
  error : Option String
deriving DecidableEq

/-- Order payload sent to the gateway (lines 166-173 and 193-198).
`quantity` and `price` are optional because the source only adds those
keys conditionally. -/
structure Payload where
  ticker : String
  action : String
  quantity : Option Int
  price : Option Rat
deriving DecidableEq

/-- Behaviour of the raw network inside `send_to_traderspost`: either
`requests.post` completes with a response (`ok` flag, status code, body
text), or it raises an exception with a message (line 45). -/
inductive NetResult where
  | response (ok : Bool) (statusCode : Int) (body : String)
  | exc (msg : String)
deriving DecidableEq

/-- One entry of `LAST_TRADES`: the dictionary written at lines 177-186
(`last_event = "new_trade"`) or lines 202-207 (`last_event = "exit"`). -/
inductive TradeRecord where
  | newTrade (direction : String) (price : Option Rat)
      (ema13Above ema200Above : Bool) (emaSnapshot : TickerTrend)
      (time : Option String) (tpResult : SubmissionResult)
  | exitTrade (price : Option Rat) (time : Option String)
      (tpResult : SubmissionResult)
deriving DecidableEq

/-- The module-level mutable state of `src/app.py`: `EMA_STATE` and
`LAST_TRADES` (lines 23 and 26). -/
structure SysState where
  emaState : String → Option TickerTrend
  lastTrades : String → Option TradeRecord

/-- Return value of `handle_new_trade_for_ticker` / `handle_exit_for_ticker`:
either a suppression dictionary `{"ok": True, "skipped": reason}` or the
pass-through `{"ok": result.ok, "detail": result}`. -/
inductive HandlerResult where
  | skipped (reason : String)
  | detail (r : SubmissionResult)
deriving DecidableEq

/-- The `"ok"` field of a handler result dictionary, used by `webhook` to
pick the HTTP status (lines 247 and 255). -/
def okFlag : HandlerResult → Bool
  | HandlerResult.skipped _ => true
  | HandlerResult.detail r => r.ok

/-- Python `dict.get(k)` on a string-valued association list. -/
def dictGet (d : List (String × String)) (k : String) : Option String :=
  (d.find? (fun kv => kv.1 == k)).map (fun kv => kv.2)

/-- Python `str.lower()` as applied to the flag texts at lines 58-59:
characterwise ASCII lowercasing (the flag values are ASCII
`"true"`/`"false"` text). -/
def pyLower (s : String) : String := String.mk (s.data.map Char.toLower)

/-- Flag interpretation at lines 57-61: `str(data.get(k, "")).lower()`
compared against the literal `"true"`. -/
def boolFlag (v : Option String) : Bool :=
  pyLower (v.getD "") == "true"

/-- Numeric field interpretation at lines 63-76: `float(...)` on the raw
value with any exception absorbed to `0.0`; an absent key takes the
default `0.0` directly. -/
def parsedFloat (pf : String → Option Rat) (v : Option String) : Rat :=
  match v with
  | none => 0
  | some s => (pf s).getD 0

/-- `update_ema_state_from_json` (lines 50-88): no-op when the ticker is
missing or falsy, otherwise build the full snapshot and overwrite
`EMA_STATE[ticker]`.  `LAST_TRADES` is untouched. -/
def update_ema_state_from_json (pf : String → Option Rat)
    (data : List (String × String)) (st : SysState) : SysState :=
  match dictGet data "ticker" with
  | none => st
  | some ticker =>
    if ticker = "" then st
    else
      { emaState := fun k =>
          if k = ticker then
            some { above13 := some (boolFlag (dictGet data "above13"))
                   above200 := some (boolFlag (dictGet data "above200"))
                   ema13 := parsedFloat pf (dictGet data "ema13")
                   ema200 := parsedFloat pf (dictGet data "ema200")
                   close := parsedFloat pf (dictGet data "close")
                   time := (dictGet data "time").getD "" }
          else st.emaState k
        lastTrades := st.lastTrades }

/-- `send_to_traderspost` (lines 31-47), parameterised by the configured
`TP_WEBHOOK_URL` and the raw network.  Also returns the list of payloads
actually posted to the network, so that "no network I/O" is expressible. -/
def send_to_traderspost (tpWebhookUrl : String) (net : Payload → NetResult)
    (payload : Payload) : SubmissionResult × List Payload :=
  if tpWebhookUrl = "" then
    ({ ok := false, status_code := none, body := none,
       error := some "TP_WEBHOOK_URL not set" }, [])
  else
    match net payload with
    | NetResult.response ok code body =>
        ({ ok := ok, status_code := some code, body := some body,
           error := none }, [payload])
    | NetResult.exc e =>
        ({ ok := false, status_code := none, body := none,
           error := some e }, [payload])

/-- Entry-order payload construction at lines 166-173: ticker, the decided
action, the configured default quantity when positive, and the price when
present. -/
def entryPayload (qty : Int) (ticker : String) (direction : String)
    (price : Option Rat) : Payload :=
  { ticker := ticker, action := direction,
    quantity := if 0 < qty then some qty else none,
    price := price }

/-- Exit-order payload construction at lines 193-198: ticker, action
`"exit"`, the price when present, and no quantity key. -/
def exitPayload (ticker : String) (price : Option Rat) : Payload :=
  { ticker := ticker, action := "exit", quantity := none, price := price }

/-- Submission half of `handle_new_trade_for_ticker` (lines 166-188): build
the payload, call the gateway, overwrite `LAST_TRADES[ticker]`, and return
the result dictionary.  The third component lists the payloads handed to
the gateway. -/
def submitEntry (qty : Int) (send : Payload → SubmissionResult)
    (st : SysState) (ticker : String) (price : Option Rat)
    (time_str : Option String) (ema_info : TickerTrend)
    (above13 above200 : Bool) (direction : String) :
    HandlerResult × SysState × List Payload :=
  (HandlerResult.detail (send (entryPayload qty ticker direction price)),
   { emaState := st.emaState
     lastTrades := fun k =>
       if k = ticker then
         some (TradeRecord.newTrade direction price above13 above200
           ema_info time_str (send (entryPayload qty ticker direction price)))
       else st.lastTrades k },
   [entryPayload qty ticker direction price])

/-- `handle_new_trade_for_ticker` (lines 130-188): look up the trend, apply
the defensive missing-field check, then the 13/200 EMA alignment rule. -/
def handle_new_trade_for_ticker (qty : Int)
    (send : Payload → SubmissionResult) (st : SysState) (ticker : String)
    (price : Option Rat) (time_str : Option String) :
    HandlerResult × SysState × List Payload :=
  match st.emaState ticker with
  | none => (HandlerResult.skipped "no_ema_state", st, [])
  | some ema_info =>
    match ema_info.above13, ema_info.above200 with
    | some above13, some above200 =>
      if above13 && above200 then
        submitEntry qty send st ticker price time_str ema_info
          above13 above200 "buy"
      else if !above13 && !above200 then
        submitEntry qty send st ticker price time_str ema_info
          above13 above200 "sell"
      else
        (HandlerResult.skipped "ema_alignment_filter", st, [])
    | _, _ => (HandlerResult.skipped "missing_ema_fields", st, [])

/-- `handle_exit_for_ticker` (lines 191-209): build the exit payload
(ticker, action `"exit"`, price when present, no quantity key), submit it,
overwrite `LAST_TRADES[ticker]`, and return the result dictionary. -/
def handle_exit_for_ticker (send : Payload → SubmissionResult)
    (st : SysState) (ticker : String) (price : Option Rat)
    (time_str : Option String) : HandlerResult × SysState × List Payload :=
  (HandlerResult.detail (send (exitPayload ticker price)),
   { emaState := st.emaState
     lastTrades := fun k =>
       if k = ticker then
         some (TradeRecord.exitTrade price time_str
           (send (exitPayload ticker price)))
       else st.lastTrades k },
   [exitPayload ticker price])

/-- Outcome of `json.loads` at the top of `webhook`: either a dictionary,
or anything else (parse failure, list, scalar, null), which falls through
to the free-text patterns. -/
inductive JsonParse where
  | dict (d : List (String × String))
  | nonDict

/-- HTTP-level response of the `webhook` route: the acknowledgement
`{"ok": True}`, a client error `{"ok": False, "error": msg}` with its
status, or a handler result serialised with status 200/500. -/
inductive Response where
  | okAck
  | clientError (status : Nat) (msg : String)
  | handlerResp (status : Nat) (r : HandlerResult)
deriving DecidableEq

/-- Python f-string rendering of an optional string, as in
`f"unknown json type \x7bmsg_type\x7d"` where an absent `type` key prints
as `None`. -/
def fmtOpt (v : Option String) : String := v.getD "None"

/-- Free-text half of `webhook` (lines 242-259): try the Titan new-trade
pattern, then the exit pattern, else reject.  The regex matches are
supplied as pre-parsed `(ticker, optional price)` results, mirroring
`parse_titan_new_trade` / `parse_exit_signal` which are pure text
extraction. -/
def webhookText (qty : Int) (send : Payload → SubmissionResult)
    (st : SysState) (titanInfo exitInfo : Option (String × Option Rat)) :
    Response × SysState × List Payload :=
  match titanInfo with
  | some (ticker, price) =>
    (Response.handlerResp
       (if okFlag (handle_new_trade_for_ticker qty send st ticker price none).1
        then 200 else 500)
       (handle_new_trade_for_ticker qty send st ticker price none).1,
     (handle_new_trade_for_ticker qty send st ticker price none).2.1,
     (handle_new_trade_for_ticker qty send st ticker price none).2.2)
  | none =>
    match exitInfo with
    | some (ticker, price) =>
      (Response.handlerResp
         (if okFlag (handle_exit_for_ticker send st ticker price none).1
          then 200 else 500)
         (handle_exit_for_ticker send st ticker price none).1,
       (handle_exit_for_ticker send st ticker price none).2.1,
       (handle_exit_for_ticker send st ticker price none).2.2)
    | none => (Response.clientError 400 "unrecognized payload", st, [])

/-- JSON half of `webhook` (lines 232-239): a non-empty dictionary is
dispatched on its `type` field; an empty dictionary or a non-dictionary
falls through to the free-text patterns. -/
def webhookClassify (qty : Int) (send : Payload → SubmissionResult)
    (pf : String → Option Rat) (jp : JsonParse)
    (titanInfo exitInfo : Option (String × Option Rat)) (st : SysState) :
    Response × SysState × List Payload :=
  match jp with
  | JsonParse.dict d =>
    if d = [] then webhookText qty send st titanInfo exitInfo
    else if dictGet d "type" = some "ema_update" then
      (Response.okAck, update_ema_state_from_json pf d st, [])
    else
      (Response.clientError 400
         ("unknown json type " ++ fmtOpt (dictGet d "type")), st, [])
  | JsonParse.nonDict => webhookText qty send st titanInfo exitInfo

/-- The `webhook` route (lines 214-259): shared-secret check first (only
when a secret is configured), then classification. -/
def webhook (secret : String) (qty : Int)
    (send : Payload → SubmissionResult) (pf : String → Option Rat)
    (reqSecret : Option String) (jp : JsonParse)
    (titanInfo exitInfo : Option (String × Option Rat)) (st : SysState) :
    Response × SysState × List Payload :=
  if secret = "" then webhookClassify qty send pf jp titanInfo exitInfo st
  else if reqSecret = some secret then
    webhookClassify qty send pf jp titanInfo exitInfo st
  else (Response.clientError 403 "invalid secret", st, [])

/-- The state at process start: both dictionaries empty. -/
def initialState : SysState :=
  { emaState := fun _ => none, lastTrades := fun _ => none }

/-- States reachable from process start through the three mutating
operations of the program. -/
inductive Reachable : SysState → Prop where
  | init : Reachable initialState
  | update (pf : String → Option Rat) (data : List (String × String))
      (st : SysState) : Reachable st →
      Reachable (update_ema_state_from_json pf data st)
  | entry (qty : Int) (send : Payload → SubmissionResult) (st : SysState)
      (ticker : String) (price : Option Rat) (tm : Option String) :
      Reachable st →
      Reachable (handle_new_trade_for_ticker qty send st ticker price tm).2.1
  | exitStep (send : Payload → SubmissionResult) (st : SysState)
      (ticker : String) (price : Option Rat) (tm : Option String) :
      Reachable st →
      Reachable (handle_exit_for_ticker send st ticker price tm).2.1

/-- Gateway stub that accepts every payload, for concrete instantiations. -/
def sendOk : Payload → SubmissionResult :=
  fun _ => { ok := true, status_code := some 200, body := some "ok",
             error := none }

/-- Gateway stub that fails every payload, for concrete instantiations. -/
def sendFail : Payload → SubmissionResult :=
  fun _ => { ok := false, status_code := none, body := none,
             error := some "connection error" }

/-- Network stub that always raises, for concrete instantiations. -/
def netNever : Payload → NetResult :=
  fun _ => NetResult.exc "unreachable"

/-- Float-parser stub that always fails, for concrete instantiations. -/
def pfNone : String → Option Rat := fun _ => none

/-- Float-parser stub that succeeds on the sample price text and fails on
everything else, for concrete instantiations. -/
def pfSample : String → Option Rat := fun s =>
  if s = "21050" then some (21050 : Rat) else none

/-- Sample trend-update dictionary: an uppercase true flag, a false flag,
a numeric field that parses, a numeric field that fails to parse, and an
absent close field. -/
def sampleUpdateData : List (String × String) :=
  [("ticker", "MNQZ2025"), ("above13", "TRUE"), ("above200", "false"),
   ("ema13", "21050"), ("ema200", "bogus")]

/-- Trend snapshot with both alignment flags true. -/
def trendBothTrue : TickerTrend :=
  { above13 := some true, above200 := some true, ema13 := 0, ema200 := 0,
    close := 0, time := "t0" }

/-- Trend snapshot with both alignment flags false. -/
def trendBothFalse : TickerTrend :=
  { above13 := some false, above200 := some false, ema13 := 0, ema200 := 0,
    close := 0, time := "t0" }

/-- Trend snapshot with mixed alignment flags. -/
def trendMixed : TickerTrend :=
  { above13 := some true, above200 := some false, ema13 := 0, ema200 := 0,
    close := 0, time := "t0" }

/-- State holding exactly one trend snapshot and an empty ledger. -/
def stateWith (t : String) (tr : TickerTrend) : SysState :=
  { emaState := fun k => if k = t then some tr else none,
    lastTrades := fun _ => none }

/-- Concrete payload for counterexample instantiations. -/
def samplePayload : Payload :=
  { ticker := "MNQZ2025", action := "buy", quantity := some 1, price := none }

/-! Helper lemmas shared by the claim theorems. -/

theorem handle_new_trade_emaState_eq (qty : Int)
    (send : Payload → SubmissionResult) (st : SysState) (ticker : String)
    (price : Option Rat) (tm : Option String) :
    (handle_new_trade_for_ticker qty send st ticker price tm).2.1.emaState =
      st.emaState := by
  unfold handle_new_trade_for_ticker
  cases h : st.emaState ticker with
  | none => rfl
  | some info =>
    obtain ⟨a13, a200, e13, e200, cl, tms⟩ := info
    cases a13 with
    | none => rfl
    | some b13 =>
      cases a200 with
      | none => rfl
      | some b200 => cases b13 <;> cases b200 <;> simp [submitEntry]

theorem handle_new_trade_lastTrades_frame (qty : Int)
    (send : Payload → SubmissionResult) (st : SysState) (ticker : String)
    (price : Option Rat) (tm : Option String) (k : String) (hk : k ≠ ticker) :
    (handle_new_trade_for_ticker qty send st ticker price tm).2.1.lastTrades k =
      st.lastTrades k := by
  unfold handle_new_trade_for_ticker
  cases h : st.emaState ticker with
  | none => rfl
  | some info =>
    obtain ⟨a13, a200, e13, e200, cl, tms⟩ := info
    cases a13 with
    | none => rfl
    | some b13 =>
      cases a200 with
      | none => rfl
      | some b200 => cases b13 <;> cases b200 <;> simp [submitEntry, hk]

theorem handle_exit_emaState_eq (send : Payload → SubmissionResult)
    (st : SysState) (ticker : String) (price : Option Rat)
    (tm : Option String) :
    (handle_exit_for_ticker send st ticker price tm).2.1.emaState =
      st.emaState := rfl

theorem handle_exit_lastTrades_frame (send : Payload → SubmissionResult)
    (st : SysState) (ticker : String) (price : Option Rat)
    (tm : Option String) (k : String) (hk : k ≠ ticker) :
    (handle_exit_for_ticker send st ticker price tm).2.1.lastTrades k =
      st.lastTrades k := by
  simp [handle_exit_for_ticker, hk]

theorem update_lastTrades_eq (pf : String → Option Rat)
    (data : List (String × String)) (st : SysState) :
    (update_ema_state_from_json pf data st).lastTrades = st.lastTrades := by
  unfold update_ema_state_from_json
  cases h : dictGet data "ticker" with
  | none => rfl
  | some t => by_cases ht : t = "" <;> simp [ht]

theorem update_emaState_frame (pf : String → Option Rat)
    (data : List (String × String)) (st : SysState) (k : String)
    (hk : dictGet data "ticker" ≠ some k) :
    (update_ema_state_from_json pf data st).emaState k = st.emaState k := by
  unfold update_ema_state_from_json
  cases h : dictGet data "ticker" with
  | none => rfl
  | some t =>
    have hkt : k ≠ t := by
      intro e
      exact hk (by rw [h, e])
    by_cases ht : t = "" <;> simp [ht, hkt]

/-! Claim theorems. -/

/-- C1: for a ticker with a stored trend whose alignment flags are both
present, `handle_new_trade_for_ticker` decides buy when both flags are
true (gateway invoked with the buy payload, ledger updated with direction
buy), decides sell when both are false, and for either mixed combination
returns the suppression `"ema_alignment_filter"` with no payload handed to
the gateway and the whole state, Trade Ledger included, unchanged. -/
theorem c1_entry_alignment (qty : Int) (send : Payload → SubmissionResult)
    (st : SysState) (ticker : String) (price : Option Rat)
    (tm : Option String) (tr : TickerTrend)
    (hst : st.emaState ticker = some tr) (a13 a200 : Bool)
    (h13 : tr.above13 = some a13) (h200 : tr.above200 = some a200) :
    (a13 = true → a200 = true →
      (handle_new_trade_for_ticker qty send st ticker price tm).1 =
        HandlerResult.detail (send (entryPayload qty ticker "buy" price)) ∧
      (handle_new_trade_for_ticker qty send st ticker price tm).2.2 =
        [entryPayload qty ticker "buy" price] ∧
      (handle_new_trade_for_ticker qty send st ticker price tm).2.1.lastTrades
          ticker =
        some (TradeRecord.newTrade "buy" price true true tr tm
          (send (entryPayload qty ticker "buy" price)))) ∧
    (a13 = false → a200 = false →
      (handle_new_trade_for_ticker qty send st ticker price tm).1 =
        HandlerResult.detail (send (entryPayload qty ticker "sell" price)) ∧
      (handle_new_trade_for_ticker qty send st ticker price tm).2.2 =
        [entryPayload qty ticker "sell" price] ∧
      (handle_new_trade_for_ticker qty send st ticker price tm).2.1.lastTrades
          ticker =
        some (TradeRecord.newTrade "sell" price false false tr tm
          (send (entryPayload qty ticker "sell" price)))) ∧
    (a13 ≠ a200 →
      (handle_new_trade_for_ticker qty send st ticker price tm).1 =
        HandlerResult.skipped "ema_alignment_filter" ∧
      (handle_new_trade_for_ticker qty send st ticker price tm).2.2 = [] ∧
      (handle_new_trade_for_ticker qty send st ticker price tm).2.1 = st) := by
  refine ⟨?_, ?_, ?_⟩
  · intro hb1 hb2
    subst hb1; subst hb2
    simp [handle_new_trade_for_ticker, hst, h13, h200, submitEntry]
  · intro hb1 hb2
    subst hb1; subst hb2
    simp [handle_new_trade_for_ticker, hst, h13, h200, submitEntry]
  · intro hne
    cases a13 <;> cases a200 <;>
      simp_all [handle_new_trade_for_ticker, hst, h13, h200]

/-- C1 witness: concrete buy decision for MNQZ2025 with both flags true. -/
theorem c1_entry_alignment_witness :
    (stateWith "MNQZ2025" trendBothTrue).emaState "MNQZ2025" =
      some trendBothTrue ∧
    trendBothTrue.above13 = some true ∧
    trendBothTrue.above200 = some true ∧
    (handle_new_trade_for_ticker 1 sendOk (stateWith "MNQZ2025" trendBothTrue)
        "MNQZ2025" none none).1 =
      HandlerResult.detail (sendOk (entryPayload 1 "MNQZ2025" "buy" none)) :=
  ⟨by decide, by decide, by decide,
   ((c1_entry_alignment 1 sendOk (stateWith "MNQZ2025" trendBothTrue)
       "MNQZ2025" none none trendBothTrue (by decide) true true (by decide)
       (by decide)).1 rfl rfl).1⟩

/-- C2 counterexample: on the initial state (no stored trend for any
ticker) the suppression reason returned by the entry handler is the code's
`"no_ema_state"`, not the claimed `"no_trend_state"`. -/
theorem c2_reason_counterexample :
    (handle_new_trade_for_ticker 1 sendOk initialState "MNQZ2025" none
        none).1 = HandlerResult.skipped "no_ema_state" ∧
    (handle_new_trade_for_ticker 1 sendOk initialState "MNQZ2025" none
        none).1 ≠ HandlerResult.skipped "no_trend_state" := by
  constructor
  · rfl
  · decide

/-- C2 (amended): for a ticker with no stored trend the entry handler
returns the suppression `"no_ema_state"`, hands no payload to the gateway,
and leaves the whole state — Trade Ledger entry included — unchanged. -/
theorem c2_no_trend_suppression (qty : Int)
    (send : Payload → SubmissionResult) (st : SysState) (ticker : String)
    (price : Option Rat) (tm : Option String)
    (h : st.emaState ticker = none) :
    (handle_new_trade_for_ticker qty send st ticker price tm).1 =
      HandlerResult.skipped "no_ema_state" ∧
    (handle_new_trade_for_ticker qty send st ticker price tm).2.2 = [] ∧
    (handle_new_trade_for_ticker qty send st ticker price tm).2.1 = st := by
  simp [handle_new_trade_for_ticker, h]

/-- C2 witness: the amended suppression on the initial state with a
failing gateway stub. -/
theorem c2_no_trend_suppression_witness :
    initialState.emaState "MNQZ2025" = none ∧
    ((handle_new_trade_for_ticker 1 sendFail initialState "MNQZ2025" none
        none).1 = HandlerResult.skipped "no_ema_state" ∧
     (handle_new_trade_for_ticker 1 sendFail initialState "MNQZ2025" none
        none).2.2 = [] ∧
     (handle_new_trade_for_ticker 1 sendFail initialState "MNQZ2025" none
        none).2.1 = initialState) :=
  ⟨rfl, c2_no_trend_suppression 1 sendFail initialState "MNQZ2025" none none
     rfl⟩

/-- C3: the exit handler unconditionally invokes the gateway with exactly
the payload (ticker, action `"exit"`, the price exactly when present, no
quantity key), records an exit TradeRecord, returns the submission
outcome, leaves the trend store untouched, and its behaviour is
independent of the trend store contents (it never reads it). -/
theorem c3_exit_unconditional (send : Payload → SubmissionResult)
    (st : SysState) (ticker : String) (price : Option Rat)
    (tm : Option String) :
    (handle_exit_for_ticker send st ticker price tm).2.2 =
      [exitPayload ticker price] ∧
    exitPayload ticker price =
      { ticker := ticker, action := "exit", quantity := none,
        price := price } ∧
    (handle_exit_for_ticker send st ticker price tm).1 =
      HandlerResult.detail (send (exitPayload ticker price)) ∧
    (handle_exit_for_ticker send st ticker price tm).2.1.lastTrades ticker =
      some (TradeRecord.exitTrade price tm
        (send (exitPayload ticker price))) ∧
    (handle_exit_for_ticker send st ticker price tm).2.1.emaState =
      st.emaState ∧
    (∀ es : String → Option TickerTrend,
      handle_exit_for_ticker send
          { emaState := es, lastTrades := st.lastTrades } ticker price tm =
        ((handle_exit_for_ticker send st ticker price tm).1,
         { emaState := es,
           lastTrades :=
             (handle_exit_for_ticker send st ticker price tm).2.1.lastTrades },
         (handle_exit_for_ticker send st ticker price tm).2.2)) := by
  refine ⟨rfl, rfl, rfl, by simp [handle_exit_for_ticker], rfl, fun es => rfl⟩

/-- C4: an accepted trend update stores a snapshot whose alignment flags
are genuine booleans: each flag is `some true` exactly when its raw text,
lower-cased, is the literal `"true"`, and `some false` for every other
value, an absent field included; each numeric field equals the parsed
value whenever the field is present and parses, and equals zero whenever
the field is absent or parsing fails; the update itself never fails. -/
theorem c4_update_field_interpretation (pf : String → Option Rat)
    (data : List (String × String)) (st : SysState) (ticker : String)
    (ht : dictGet data "ticker" = some ticker) (hne : ticker ≠ "") :
    ∃ tr : TickerTrend,
      (update_ema_state_from_json pf data st).emaState ticker = some tr ∧
      (tr.above13 = some true ↔
        pyLower ((dictGet data "above13").getD "") = "true") ∧
      (pyLower ((dictGet data "above13").getD "") ≠ "true" →
        tr.above13 = some false) ∧
      (tr.above200 = some true ↔
        pyLower ((dictGet data "above200").getD "") = "true") ∧
      (pyLower ((dictGet data "above200").getD "") ≠ "true" →
        tr.above200 = some false) ∧
      (∀ s v, dictGet data "ema13" = some s → pf s = some v →
        tr.ema13 = v) ∧
      (∀ s, dictGet data "ema13" = some s → pf s = none → tr.ema13 = 0) ∧
      (dictGet data "ema13" = none → tr.ema13 = 0) ∧
      (∀ s v, dictGet data "ema200" = some s → pf s = some v →
        tr.ema200 = v) ∧
      (∀ s, dictGet data "ema200" = some s → pf s = none →
        tr.ema200 = 0) ∧
      (dictGet data "ema200" = none → tr.ema200 = 0) ∧
      (∀ s v, dictGet data "close" = some s → pf s = some v →
        tr.close = v) ∧
      (∀ s, dictGet data "close" = some s → pf s = none → tr.close = 0) ∧
      (dictGet data "close" = none → tr.close = 0) := by
  refine ⟨{ above13 := some (boolFlag (dictGet data "above13")),
            above200 := some (boolFlag (dictGet data "above200")),
            ema13 := parsedFloat pf (dictGet data "ema13"),
            ema200 := parsedFloat pf (dictGet data "ema200"),
            close := parsedFloat pf (dictGet data "close"),
            time := (dictGet data "time").getD "" },
          ?_, ?_, ?_, ?_, ?_, ?_, ?_, ?_, ?_, ?_, ?_, ?_, ?_, ?_⟩
  · simp [update_ema_state_from_json, ht, hne]
  · simp [boolFlag]
  · intro h
    simp [boolFlag, beq_eq_false_iff_ne, h]
  · simp [boolFlag]
  · intro h
    simp [boolFlag, beq_eq_false_iff_ne, h]
  · intro s v hs hv
    simp [parsedFloat, hs, hv]
  · intro s hs hv
    simp [parsedFloat, hs, hv]
  · intro h
    simp [parsedFloat, h]
  · intro s v hs hv
    simp [parsedFloat, hs, hv]
  · intro s hs hv
    simp [parsedFloat, hs, hv]
  · intro h
    simp [parsedFloat, h]
  · intro s v hs hv
    simp [parsedFloat, hs, hv]
  · intro s hs hv
    simp [parsedFloat, hs, hv]
  · intro h
    simp [parsedFloat, h]

/-- C4 witness: concrete update where `ema13` parses successfully to
21050 and is stored as that value, `ema200` is present but fails to
parse, `close` is absent, `above13` is `"TRUE"` (stored true) and
`above200` is `"false"` (stored false); the stored snapshot is evaluated
in full. -/
theorem c4_update_field_interpretation_witness :
    dictGet sampleUpdateData "ticker" = some "MNQZ2025" ∧
    "MNQZ2025" ≠ "" ∧
    dictGet sampleUpdateData "ema13" = some "21050" ∧
    pfSample "21050" = some (21050 : Rat) ∧
    (update_ema_state_from_json pfSample sampleUpdateData
        initialState).emaState "MNQZ2025" =
      some { above13 := some true, above200 := some false,
             ema13 := (21050 : Rat), ema200 := 0, close := 0,
             time := "" } ∧
    (∃ tr : TickerTrend,
      (update_ema_state_from_json pfSample sampleUpdateData
          initialState).emaState "MNQZ2025" = some tr ∧
      (tr.above13 = some true ↔
        pyLower ((dictGet sampleUpdateData "above13").getD "") = "true") ∧
      (pyLower ((dictGet sampleUpdateData "above13").getD "") ≠ "true" →
        tr.above13 = some false) ∧
      (tr.above200 = some true ↔
        pyLower ((dictGet sampleUpdateData "above200").getD "") =
          "true") ∧
      (pyLower ((dictGet sampleUpdateData "above200").getD "") ≠ "true" →
        tr.above200 = some false) ∧
      (∀ s v, dictGet sampleUpdateData "ema13" = some s →
        pfSample s = some v → tr.ema13 = v) ∧
      (∀ s, dictGet sampleUpdateData "ema13" = some s →
        pfSample s = none → tr.ema13 = 0) ∧
      (dictGet sampleUpdateData "ema13" = none → tr.ema13 = 0) ∧
      (∀ s v, dictGet sampleUpdateData "ema200" = some s →
        pfSample s = some v → tr.ema200 = v) ∧
      (∀ s, dictGet sampleUpdateData "ema200" = some s →
        pfSample s = none → tr.ema200 = 0) ∧
      (dictGet sampleUpdateData "ema200" = none → tr.ema200 = 0) ∧
      (∀ s v, dictGet sampleUpdateData "close" = some s →
        pfSample s = some v → tr.close = v) ∧
      (∀ s, dictGet sampleUpdateData "close" = some s →
        pfSample s = none → tr.close = 0) ∧
      (dictGet sampleUpdateData "close" = none → tr.close = 0)) :=
  ⟨by decide, by decide, by decide, by decide, by decide,
   c4_update_field_interpretation pfSample sampleUpdateData initialState
     "MNQZ2025" (by decide) (by decide)⟩

/-- C5: whenever the entry handler determines a direction (aligned flags)
and whenever the exit handler runs, the Trade Ledger entry of that ticker
is overwritten with the new event and the gateway's outcome — for every
gateway behaviour `send`, so in particular on submission failure. -/
theorem c5_ledger_overwrite (qty : Int) (send : Payload → SubmissionResult)
    (st : SysState) (ticker : String) (price : Option Rat)
    (tm : Option String) (tr : TickerTrend) (a : Bool)
    (hst : st.emaState ticker = some tr) (h13 : tr.above13 = some a)
    (h200 : tr.above200 = some a) :
    (handle_new_trade_for_ticker qty send st ticker price tm).2.1.lastTrades
        ticker =
      some (TradeRecord.newTrade (if a then "buy" else "sell") price a a tr
        tm (send (entryPayload qty ticker (if a then "buy" else "sell")
          price))) ∧
    (∀ (st2 : SysState) (price2 : Option Rat) (tm2 : Option String),
      (handle_exit_for_ticker send st2 ticker price2 tm2).2.1.lastTrades
          ticker =
        some (TradeRecord.exitTrade price2 tm2
          (send (exitPayload ticker price2)))) := by
  constructor
  · cases a <;>
      simp [handle_new_trade_for_ticker, hst, h13, h200, submitEntry]
  · intro st2 price2 tm2
    simp [handle_exit_for_ticker]

/-- C5 witness: with a failing gateway stub the ledger entry is still
overwritten, both on a sell decision and on an exit. -/
theorem c5_ledger_overwrite_witness :
    (stateWith "MNQZ2025" trendBothFalse).emaState "MNQZ2025" =
      some trendBothFalse ∧
    trendBothFalse.above13 = some false ∧
    trendBothFalse.above200 = some false ∧
    (handle_new_trade_for_ticker 1 sendFail
        (stateWith "MNQZ2025" trendBothFalse) "MNQZ2025" none
        none).2.1.lastTrades "MNQZ2025" =
      some (TradeRecord.newTrade (if false then "buy" else "sell") none false
        false trendBothFalse none
        (sendFail (entryPayload 1 "MNQZ2025"
          (if false then "buy" else "sell") none))) :=
  ⟨by decide, by decide, by decide,
   (c5_ledger_overwrite 1 sendFail (stateWith "MNQZ2025" trendBothFalse)
      "MNQZ2025" none none trendBothFalse false (by decide) (by decide)
      (by decide)).1⟩

/-- Characterisation of the snapshot stored by an accepted update at the
updated key. -/
theorem update_emaState_written (pf : String → Option Rat)
    (data : List (String × String)) (st : SysState) (tk : String)
    (hd : dictGet data "ticker" = some tk) (htk : tk ≠ "") :
    (update_ema_state_from_json pf data st).emaState tk =
      some { above13 := some (boolFlag (dictGet data "above13"))
             above200 := some (boolFlag (dictGet data "above200"))
             ema13 := parsedFloat pf (dictGet data "ema13")
             ema200 := parsedFloat pf (dictGet data "ema200")
             close := parsedFloat pf (dictGet data "close")
             time := (dictGet data "time").getD "" } := by
  simp [update_ema_state_from_json, hd, htk]

/-- Invariant of all reachable states: every stored snapshot carries both
alignment flags. -/
theorem flags_present_of_reachable (st : SysState) (h : Reachable st) :
    ∀ t tr, st.emaState t = some tr →
      tr.above13.isSome = true ∧ tr.above200.isSome = true := by
  induction h with
  | init =>
    intro t tr hget
    simp [initialState] at hget
  | update pf data st0 h0 ih =>
    intro t tr hget
    cases hd : dictGet data "ticker" with
    | none =>
      have hid : update_ema_state_from_json pf data st0 = st0 := by
        simp [update_ema_state_from_json, hd]
      rw [hid] at hget
      exact ih t tr hget
    | some tk =>
      by_cases htk : tk = ""
      · have hid : update_ema_state_from_json pf data st0 = st0 := by
          simp [update_ema_state_from_json, hd, htk]
        rw [hid] at hget
        exact ih t tr hget
      · by_cases htt : t = tk
        · subst htt
          rw [update_emaState_written pf data st0 t hd htk] at hget
          have htr := Option.some.inj hget
          subst htr
          simp
        · rw [update_emaState_frame pf data st0 t
            (by rw [hd]; intro e; exact htt (Option.some.inj e).symm)] at hget
          exact ih t tr hget
  | entry qty send st0 ticker price tm h0 ih =>
    intro t tr hget
    rw [handle_new_trade_emaState_eq] at hget
    exact ih t tr hget
  | exitStep send st0 ticker price tm h0 ih =>
    intro t tr hget
    rw [handle_exit_emaState_eq] at hget
    exact ih t tr hget

/-- C6: in every state reachable from process start, every stored snapshot
has both alignment flags present, so the entry handler's defensive
`"missing_ema_fields"` suppression branch is never taken. -/
theorem c6_missing_flags_unreachable (st : SysState) (h : Reachable st)
    (qty : Int) (send : Payload → SubmissionResult) (ticker : String)
    (price : Option Rat) (tm : Option String) :
    (∀ t tr, st.emaState t = some tr →
      tr.above13.isSome = true ∧ tr.above200.isSome = true) ∧
    (handle_new_trade_for_ticker qty send st ticker price tm).1 ≠
      HandlerResult.skipped "missing_ema_fields" := by
  have hfp := flags_present_of_reachable st h
  refine ⟨hfp, ?_⟩
  unfold handle_new_trade_for_ticker
  cases hget : st.emaState ticker with
  | none => simp
  | some info =>
    obtain ⟨a13, a200, e13, e200, cl, tms⟩ := info
    obtain ⟨hf, hs⟩ := hfp ticker _ hget
    cases a13 with
    | none => simp at hf
    | some b13 =>
      cases a200 with
      | none => simp at hs
      | some b200 => cases b13 <;> cases b200 <;> simp [submitEntry]

/-- C6 witness: the invariant and the unreachability of the defensive
branch at the initial state. -/
theorem c6_missing_flags_unreachable_witness :
    Reachable initialState ∧
    ((∀ t tr, initialState.emaState t = some tr →
        tr.above13.isSome = true ∧ tr.above200.isSome = true) ∧
     (handle_new_trade_for_ticker 1 sendOk initialState "MNQZ2025" none
        none).1 ≠ HandlerResult.skipped "missing_ema_fields") :=
  ⟨Reachable.init,
   c6_missing_flags_unreachable initialState Reachable.init 1 sendOk
     "MNQZ2025" none none⟩

/-- C7 counterexample: with no destination configured the gateway's error
string is the code's `"TP_WEBHOOK_URL not set"`, not the claimed
`"endpoint not configured"`. -/
theorem c7_error_string_counterexample :
    (send_to_traderspost "" netNever samplePayload).1.error =
      some "TP_WEBHOOK_URL not set" ∧
    (send_to_traderspost "" netNever samplePayload).1.error ≠
      some "endpoint not configured" := by
  constructor
  · rfl
  · decide

/-- C7 (amended): with no destination configured the gateway returns the
failure outcome (`ok = false`, error `"TP_WEBHOOK_URL not set"`)
immediately, posting nothing to the network; otherwise it posts exactly
once and returns the response, or the exception message, as data. -/
theorem c7_gateway_outcomes (tpWebhookUrl : String)
    (net : Payload → NetResult) (p : Payload) :
    (tpWebhookUrl = "" →
      send_to_traderspost tpWebhookUrl net p =
        ({ ok := false, status_code := none, body := none,
           error := some "TP_WEBHOOK_URL not set" }, [])) ∧
    (tpWebhookUrl ≠ "" →
      (send_to_traderspost tpWebhookUrl net p).2 = [p] ∧
      (∀ b code body, net p = NetResult.response b code body →
        (send_to_traderspost tpWebhookUrl net p).1 =
          { ok := b, status_code := some code, body := some body,
            error := none }) ∧
      (∀ msg, net p = NetResult.exc msg →
        (send_to_traderspost tpWebhookUrl net p).1 =
          { ok := false, status_code := none, body := none,
            error := some msg })) := by
  constructor
  · intro h
    simp [send_to_traderspost, h]
  · intro h
    refine ⟨?_, ?_, ?_⟩
    · cases hnp : net p <;> simp [send_to_traderspost, h, hnp]
    · intro b code body hb
      simp [send_to_traderspost, h, hb]
    · intro msg hm
      simp [send_to_traderspost, h, hm]

/-- C7 witness: the unconfigured branch at a concrete payload. -/
theorem c7_gateway_outcomes_witness :
    ("" : String) = "" ∧
    send_to_traderspost "" netNever samplePayload =
      ({ ok := false, status_code := none, body := none,
         error := some "TP_WEBHOOK_URL not set" }, []) :=
  ⟨rfl, (c7_gateway_outcomes "" netNever samplePayload).1 rfl⟩

/-- C8: a request that passes the secret check and parses to a non-empty
dictionary whose `type` is not `"ema_update"` is answered with the
client error 400 referencing that type, with no payload submitted and the
state (both stores) unchanged. -/
theorem c8_unknown_json_type (secret : String) (qty : Int)
    (send : Payload → SubmissionResult) (pf : String → Option Rat)
    (reqSecret : Option String) (d : List (String × String))
    (titanInfo exitInfo : Option (String × Option Rat)) (st : SysState)
    (hauth : secret = "" ∨ reqSecret = some secret) (hne : d ≠ [])
    (hty : dictGet d "type" ≠ some "ema_update") :
    webhook secret qty send pf reqSecret (JsonParse.dict d) titanInfo
        exitInfo st =
      (Response.clientError 400
         ("unknown json type " ++ fmtOpt (dictGet d "type")), st, []) := by
  have hcls : webhookClassify qty send pf (JsonParse.dict d) titanInfo
      exitInfo st =
        (Response.clientError 400
           ("unknown json type " ++ fmtOpt (dictGet d "type")), st, []) := by
    simp [webhookClassify, hne, hty]
  by_cases hs : secret = ""
  · simp [webhook, hs, hcls]
  · rcases hauth with h | h
    · exact absurd h hs
    · simp [webhook, hs, h, hcls]

/-- C8 witness: the scenario message with `type = "unknown_kind"`. -/
theorem c8_unknown_json_type_witness :
    (("" : String) = "" ∨ (none : Option String) = some "") ∧
    ([("type", "unknown_kind")] : List (String × String)) ≠ [] ∧
    dictGet [("type", "unknown_kind")] "type" ≠ some "ema_update" ∧
    webhook "" 1 sendOk pfNone none
        (JsonParse.dict [("type", "unknown_kind")]) none none initialState =
      (Response.clientError 400
         ("unknown json type " ++
           fmtOpt (dictGet [("type", "unknown_kind")] "type")),
       initialState, []) :=
  ⟨Or.inl rfl, by decide, by decide,
   c8_unknown_json_type "" 1 sendOk pfNone none [("type", "unknown_kind")]
     none none initialState (Or.inl rfl) (by decide) (by decide)⟩

/-- C9: the entry and exit handlers never modify the trend store and write
at most their own ticker's ledger entry; the update operation never
modifies the ledger and writes at most the given ticker's trend entry. -/
theorem c9_frame_conditions (qty : Int) (send : Payload → SubmissionResult)
    (st : SysState) (ticker : String) (price : Option Rat)
    (tm : Option String) (pf : String → Option Rat)
    (data : List (String × String)) :
    ((handle_new_trade_for_ticker qty send st ticker price tm).2.1.emaState =
        st.emaState ∧
     ∀ k, k ≠ ticker →
       (handle_new_trade_for_ticker qty send st ticker price
           tm).2.1.lastTrades k = st.lastTrades k) ∧
    ((handle_exit_for_ticker send st ticker price tm).2.1.emaState =
        st.emaState ∧
     ∀ k, k ≠ ticker →
       (handle_exit_for_ticker send st ticker price tm).2.1.lastTrades k =
         st.lastTrades k) ∧
    ((update_ema_state_from_json pf data st).lastTrades = st.lastTrades ∧
     ∀ k, dictGet data "ticker" ≠ some k →
       (update_ema_state_from_json pf data st).emaState k =
         st.emaState k) :=
  ⟨⟨handle_new_trade_emaState_eq qty send st ticker price tm,
    fun k hk =>
      handle_new_trade_lastTrades_frame qty send st ticker price tm k hk⟩,
   ⟨handle_exit_emaState_eq send st ticker price tm,
    fun k hk => handle_exit_lastTrades_frame send st ticker price tm k hk⟩,
   ⟨update_lastTrades_eq pf data st,
    fun k hk => update_emaState_frame pf data st k hk⟩⟩

/-- C9 witness: a concrete other ticker's entries are untouched by an
entry decision and by an update. -/
theorem c9_frame_conditions_witness :
    ("ES" : String) ≠ "MNQZ2025" ∧
    dictGet [("ticker", "MNQZ2025")] "ticker" ≠ some "ES" ∧
    (handle_new_trade_for_ticker 1 sendOk
        (stateWith "MNQZ2025" trendBothTrue) "MNQZ2025" none
        none).2.1.lastTrades "ES" =
      (stateWith "MNQZ2025" trendBothTrue).lastTrades "ES" ∧
    (update_ema_state_from_json pfNone [("ticker", "MNQZ2025")]
        initialState).emaState "ES" = initialState.emaState "ES" :=
  ⟨by decide, by decide,
   (c9_frame_conditions 1 sendOk (stateWith "MNQZ2025" trendBothTrue)
      "MNQZ2025" none none pfNone [("ticker", "MNQZ2025")]).1.2 "ES"
     (by decide),
   (c9_frame_conditions 1 sendOk initialState "MNQZ2025" none none pfNone
      [("ticker", "MNQZ2025")]).2.2.2 "ES" (by decide)⟩

/-- C10: a trend update whose dictionary has no ticker key is a complete
no-op: it returns normally and the state, the trend store in particular,
is exactly unchanged. -/
theorem c10_update_missing_ticker (pf : String → Option Rat)
    (data : List (String × String)) (st : SysState)
    (h : dictGet data "ticker" = none) :
    update_ema_state_from_json pf data st = st := by
  simp [update_ema_state_from_json, h]

/-- C10 witness: a concrete update message without a ticker key. -/
theorem c10_update_missing_ticker_witness :
    dictGet [("above13", "true")] "ticker" = none ∧
    update_ema_state_from_json pfNone [("above13", "true")] initialState =
      initialState :=
  ⟨by decide,
   c10_update_missing_ticker pfNone [("above13", "true")] initialState
     (by decide)⟩
